import Mathlib

/-!
Shallow embedding of the eBPF monitor program
`src/internal/ebpf/claude_monitor.c`.

User-space memory (the buffer handed to the write hook) is modelled as a
partial map from byte offsets to byte values; `none` models a
`bpf_probe_read_user` fault at that offset.  Every bounded C loop
(`#pragma unroll` with a compile-time constant bound) is modelled by
structural recursion on an explicit fuel equal to the C loop bound, with
the data-dependent part of the loop condition kept as a guard inside the
body, exactly as in the source.

The two BPF hash maps (`claude_pids`, `socket_connections`) are modelled
as total functions into `Option`; `bpf_map_update_elem` with `BPF_ANY`
is insert-or-overwrite and `bpf_map_delete_elem` of an absent key is a
no-op, as in the kernel API.  Map capacity limits (1024 / 2048 slots) are
not modelled; no claim depends on them.  The per-CPU counter array is
modelled as a record of five natural numbers (a single activation's
view); `increment_counter` always succeeds.  Ring-buffer reservation
success is an explicit boolean input of each handler, and the emitted
record (if any) is the handler's second output.
-/

set_option maxRecDepth 100000

/-- Partial byte memory: `none` at an offset models a probe-read fault. -/
abbrev Mem := Nat → Option Nat

/-- Byte values of a string literal. -/
def strBytes (s : String) : List Nat := s.data.map Char.toNat

/-- Memory backed by a finite list of bytes; offsets past the end fault. -/
def memOfList (l : List Nat) : Mem := fun i => l[i]?

/-- Result of one bounded space-scanning loop, the shared shape of the
copy loops inside `parse_http_method` and `parse_http_uri`: a probe-read
fault, a space found at a relative index (with the output buffer written
so far), or loop exhaustion without finding a space. -/
inductive ScanRes where
  | fault : ScanRes
  | found : Nat → List Nat → ScanRes
  | nospace : List Nat → ScanRes
  deriving DecidableEq

/-- The scanning loop of `parse_http_method` and `parse_http_uri` from
`claude_monitor.c`: iterate `i` from its start value for at most `fuel`
steps (the C compile-time bound, 8 resp. 128) while `i < bound` (the
data-dependent part of the C loop condition); probe-read the byte at
`off + i`, stop at a space, otherwise copy the byte into the output at
`i` when `i < maxLen - 1`. -/
def scanSpace (m : Mem) (off bound maxLen : Nat) : Nat → Nat → List Nat → ScanRes
  | 0, _, out => ScanRes.nospace out
  | fuel+1, i, out =>
    if i < bound then
      match m (off + i) with
      | none => ScanRes.fault
      | some c =>
        if c = 32 then ScanRes.found i out
        else scanSpace m off bound maxLen fuel (i+1)
          (if i < maxLen - 1 then out.set i c else out)
    else ScanRes.nospace out

/-- The function `parse_http_method` of `claude_monitor.c` (lines
135-163): requires `data_len >= 8` and `max_len >= 8`, scans the first
`min(8, data_len)` bytes for a space, fails (`-1`, here `none`) when no
space is found or a probe read faults or the space index reaches
`max_len`; on success null-terminates the output at the space index and
returns that index (the method length). -/
def parse_http_method (m : Mem) (dataLen : Nat) (out0 : List Nat) (maxLen : Nat) :
    Option (Nat × List Nat) :=
  if dataLen < 8 ∨ maxLen < 8 then none
  else
    match scanSpace m 0 dataLen maxLen 8 0 out0 with
    | ScanRes.fault => none
    | ScanRes.nospace _ => none
    | ScanRes.found pos out =>
      if maxLen ≤ pos then none
      else some (pos, out.set pos 0)

/-- The function `parse_http_uri` of `claude_monitor.c` (lines 165-197):
requires `data_len >= method_len + 2` and `method_len < data_len`, scans
up to `min(128, data_len - method_len - 1)` bytes starting at offset
`method_len + 1` for a space; fails when a probe read faults, when no
space is found (the C `uri_len` stays 0), when the space is at relative
index 0, or when the index reaches `max_len`; on success null-terminates
and returns the URI length. -/
def parse_http_uri (m : Mem) (dataLen methodLen : Nat) (out0 : List Nat) (maxLen : Nat) :
    Option (Nat × List Nat) :=
  if dataLen < methodLen + 2 ∨ dataLen ≤ methodLen then none
  else
    match scanSpace m (methodLen + 1) (dataLen - methodLen - 1) maxLen 128 0 out0 with
    | ScanRes.fault => none
    | ScanRes.nospace _ => none
    | ScanRes.found pos out =>
      if pos = 0 ∨ maxLen ≤ pos then none
      else some (pos, out.set pos 0)

/-- Byte values of the 16-byte header literal `"Content-Length: "`. -/
def clHeader : List Nat := strBytes "Content-Length: "

/-- Inner match loop of `parse_content_length` (lines 208-218): compare
16 bytes at offset `i` against the header literal; `none` models the C
`return 0` on a probe-read fault, `some false` a mismatch (break to the
outer loop), `some true` a full match. -/
def clMatch (m : Mem) (i : Nat) : Nat → Nat → Option Bool
  | 0, _ => some true
  | fuel+1, j =>
    match m (i + j) with
    | none => none
    | some c =>
      if c ≠ clHeader.getD j 0 then some false
      else clMatch m i fuel (j+1)

/-- Digit-accumulation loop of `parse_content_length` (lines 225-236):
up to 10 bytes starting at `startPos`, while within `dataLen`; a
probe-read fault or a non-digit byte stops the loop, returning the
accumulator so far; digits accumulate in unsigned 32-bit arithmetic. -/
def clDigits (m : Mem) (dataLen startPos : Nat) : Nat → Nat → Nat → Nat
  | 0, _, acc => acc
  | fuel+1, k, acc =>
    if startPos + k < dataLen then
      match m (startPos + k) with
      | none => acc
      | some c =>
        if 48 ≤ c ∧ c ≤ 57 then
          clDigits m dataLen startPos fuel (k+1) ((acc * 10 + (c - 48)) % 4294967296)
        else acc
    else acc

/-- Outer search loop of `parse_content_length` (lines 205-239): try
offsets `i < min(512, data_len - 16)`; a probe-read fault during the
match makes the whole function return 0; on the first full match the
digit loop runs at `i + 16` and its value is returned; otherwise 0. -/
def clSearch (m : Mem) (dataLen : Nat) : Nat → Nat → Nat
  | 0, _ => 0
  | fuel+1, i =>
    if i < dataLen - 16 then
      match clMatch m i 16 0 with
      | none => 0
      | some true => clDigits m dataLen (i + 16) 10 0 0
      | some false => clSearch m dataLen fuel (i+1)
    else 0

/-- The function `parse_content_length` of `claude_monitor.c` (lines
199-242). -/
def parse_content_length (m : Mem) (dataLen : Nat) : Nat :=
  clSearch m dataLen 512 0

/-- Byte values of the target literal `CLAUDE_COMM = "claude"`. -/
def claudeTarget : List Nat := strBytes "claude"

/-- Loop of `is_claude_process` (lines 266-279): for `i < 6`, mismatch
with the target byte returns 0; a null byte (only reachable if it equals
the target byte, hence never) breaks; otherwise continue; reaching the
end returns 1. -/
def icpLoop (comm : List Nat) : Nat → Nat → Bool
  | 0, _ => true
  | fuel+1, i =>
    if comm.getD i 0 ≠ claudeTarget.getD i 0 then false
    else if comm.getD i 0 = 0 then true
    else icpLoop comm fuel (i+1)

/-- The function `is_claude_process` of `claude_monitor.c`. -/
def is_claude_process (comm : List Nat) : Bool := icpLoop comm 6 0

/-- The function `is_anthropic_connection` of `claude_monitor.c` (lines
244-247): purely a port test, the address is ignored. -/
def is_anthropic_connection (_addr port : Nat) : Bool :=
  port == 443 || port == 80

/-- Network-to-host byte swap of a 16-bit value (`bpf_ntohs`). -/
def bpf_ntohs (x : Nat) : Nat := (x % 256) * 256 + (x / 256) % 256

def EVENT_EXEC : Nat := 1
def EVENT_CONNECT : Nat := 2
def EVENT_EXIT : Nat := 3
def EVENT_HTTP_REQUEST : Nat := 4
def AF_INET : Nat := 2

/-- Value type of the `socket_connections` map. -/
structure SocketInfo where
  pid : Nat
  target_addr : Nat
  target_port : Nat
  connect_time : Nat
  deriving DecidableEq

/-- The per-CPU performance counters (one activation's view). -/
structure Counters where
  processed : Nat
  dropped : Nat
  execve_calls : Nat
  connect_calls : Nat
  http_requests : Nat
  deriving DecidableEq

/-- The mutable shared state of the program: the two hash maps and the
counter bank. -/
structure MonState where
  claude_pids : Nat → Option Nat
  socket_connections : Nat → Option SocketInfo
  counters : Counters

/-- The event record `struct claude_event`, with fixed-size char arrays
modelled as byte lists. -/
structure ClaudeEvent where
  timestamp : Nat
  pid : Nat
  ppid : Nat
  uid : Nat
  event_type : Nat
  target_addr : Nat
  target_port : Nat
  exit_code : Int
  comm : List Nat
  path : List Nat
  http_method : List Nat
  http_uri : List Nat
  content_length : Nat
  socket_fd : Nat
  deriving DecidableEq

/-- The all-zero event produced by `__builtin_memset(event, 0, ...)`. -/
def zeroEvent : ClaudeEvent :=
  { timestamp := 0, pid := 0, ppid := 0, uid := 0, event_type := 0,
    target_addr := 0, target_port := 0, exit_code := 0,
    comm := List.replicate 16 0, path := List.replicate 256 0,
    http_method := List.replicate 8 0, http_uri := List.replicate 128 0,
    content_length := 0, socket_fd := 0 }

def incProcessed (s : MonState) : MonState :=
  { s with counters := { s.counters with processed := s.counters.processed + 1 } }

def incDropped (s : MonState) : MonState :=
  { s with counters := { s.counters with dropped := s.counters.dropped + 1 } }

def incExecve (s : MonState) : MonState :=
  { s with counters := { s.counters with execve_calls := s.counters.execve_calls + 1 } }

def incConnect (s : MonState) : MonState :=
  { s with counters := { s.counters with connect_calls := s.counters.connect_calls + 1 } }

def incHttp (s : MonState) : MonState :=
  { s with counters := { s.counters with http_requests := s.counters.http_requests + 1 } }

/-- `bpf_map_update_elem(&claude_pids, &pid, &ts, BPF_ANY)`. -/
def markPid (s : MonState) (pid ts : Nat) : MonState :=
  { s with claude_pids := fun p => if p = pid then some ts else s.claude_pids p }

/-- `bpf_map_delete_elem(&claude_pids, &pid)` (no-op when absent). -/
def delPid (s : MonState) (pid : Nat) : MonState :=
  { s with claude_pids := fun p => if p = pid then none else s.claude_pids p }

/-- `bpf_map_update_elem(&socket_connections, &fd, &info, BPF_ANY)`. -/
def trackSocket (s : MonState) (fd : Nat) (si : SocketInfo) : MonState :=
  { s with socket_connections := fun f => if f = fd then some si else s.socket_connections f }

/-- The handler `trace_execve` (lines 312-376).  `commOk` models the
return of `bpf_get_current_comm`; `path` is the byte content that the
best-effort `bpf_probe_read_user_str` leaves in `event->path` (zeros if
the filename pointer is null or the read fails); `reserveOk` models
`bpf_ringbuf_reserve`. -/
def trace_execve (s : MonState) (pid ts uid ppid : Nat) (commOk : Bool)
    (comm : List Nat) (path : List Nat) (reserveOk : Bool) :
    MonState × Option ClaudeEvent :=
  if commOk = false then (s, none)
  else if is_claude_process comm = false then (s, none)
  else
    let s1 := incExecve s
    if reserveOk = false then (incDropped s1, none)
    else
      (incProcessed (markPid s1 pid ts),
       some { zeroEvent with
         timestamp := ts, pid := pid, ppid := ppid, uid := uid,
         event_type := EVENT_EXEC, comm := comm, path := path })

/-- The handler `trace_connect` (lines 387-467).  `addrNonNull` models
the null check on the sockaddr pointer; `familyRead`, `addrRead` and
`portRead` model the three `bpf_probe_read_kernel` calls (`none` is a
failed read); `portRead` carries the network-order port.  A failed
address/port read after reservation discards the record without touching
the dropped counter, as in the source. -/
def trace_connect (s : MonState) (pid ts uid fd : Nat) (addrNonNull : Bool)
    (familyRead : Option Nat) (addrRead : Option Nat) (portRead : Option Nat)
    (comm : List Nat) (reserveOk : Bool) : MonState × Option ClaudeEvent :=
  if (s.claude_pids pid).isNone then (s, none)
  else
    let s1 := incConnect s
    if addrNonNull = false then (s1, none)
    else
      match familyRead with
      | none => (s1, none)
      | some fam =>
        if fam ≠ AF_INET then (s1, none)
        else if reserveOk = false then (incDropped s1, none)
        else
          match addrRead, portRead with
          | some a, some pNet =>
            let port := bpf_ntohs pNet
            let s2 :=
              if is_anthropic_connection a port then
                trackSocket s1 fd
                  { pid := pid, target_addr := a, target_port := port, connect_time := ts }
              else s1
            (incProcessed s2,
             some { zeroEvent with
               timestamp := ts, pid := pid, uid := uid,
               event_type := EVENT_CONNECT,
               target_addr := a, target_port := port, comm := comm })
          | _, _ => (s1, none)

/-- The handler `trace_exit` (lines 478-523).  When reservation fails
the map entry is still deleted and the dropped counter incremented; on
success the entry is deleted and an EXIT record emitted. -/
def trace_exit (s : MonState) (pid : Nat) (exit_code : Int) (ts : Nat)
    (comm : List Nat) (reserveOk : Bool) : MonState × Option ClaudeEvent :=
  if (s.claude_pids pid).isNone then (s, none)
  else if reserveOk = false then (incDropped (delPid s pid), none)
  else
    (incProcessed (delPid s pid),
     some { zeroEvent with
       timestamp := ts, pid := pid, event_type := EVENT_EXIT,
       exit_code := exit_code, comm := comm })

/-- The handler `trace_write` (lines 534-619): gate on the pid tracker,
the socket-correlation entry and the length window `[16, 512]`; run the
three parsers with the additional `method_len >= 3` and `uri_len >= 1`
checks of the source; only then reserve and emit an HTTP_REQUEST record
carrying the parsed fields and the correlated destination. -/
def trace_write (s : MonState) (pid fd : Nat) (m : Mem) (count : Nat)
    (ts uid : Nat) (comm : List Nat) (reserveOk : Bool) :
    MonState × Option ClaudeEvent :=
  if (s.claude_pids pid).isNone then (s, none)
  else
    match s.socket_connections fd with
    | none => (s, none)
    | some si =>
      if count < 16 ∨ 512 < count then (s, none)
      else
        match parse_http_method m count (List.replicate 8 0) 8 with
        | none => (s, none)
        | some (methodLen, method) =>
          if methodLen < 3 then (s, none)
          else
            match parse_http_uri m count methodLen (List.replicate 128 0) 128 with
            | none => (s, none)
            | some (uriLen, uri) =>
              if uriLen < 1 then (s, none)
              else
                let cl := parse_content_length m count
                let s1 := incHttp s
                if reserveOk = false then (incDropped s1, none)
                else
                  (incProcessed s1,
                   some { zeroEvent with
                     timestamp := ts, pid := pid, uid := uid,
                     event_type := EVENT_HTTP_REQUEST,
                     target_addr := si.target_addr, target_port := si.target_port,
                     socket_fd := fd, content_length := cl,
                     http_method := method, http_uri := uri, comm := comm })

/-- Concrete 16-byte comm `"claude\0..."` (an exact match). -/
def commClaude : List Nat := strBytes "claude" ++ List.replicate 10 0

/-- Concrete 16-byte comm `"claudex\0..."`: merely begins with the target. -/
def commClaudex : List Nat := strBytes "claudex" ++ List.replicate 9 0

def cnt0 : Counters :=
  { processed := 0, dropped := 0, execve_calls := 0, connect_calls := 0, http_requests := 0 }

/-- Initial state: empty maps, zero counters. -/
def s0 : MonState :=
  { claude_pids := fun _ => none, socket_connections := fun _ => none, counters := cnt0 }

/-- Concrete socket-correlation entry for fd 5. -/
def si5 : SocketInfo :=
  { pid := 100, target_addr := 16909060, target_port := 443, connect_time := 777 }

/-- State with pid 100 tracked (timestamp 50) and fd 5 correlated to `si5`. -/
def sTracked : MonState :=
  { claude_pids := fun p => if p = 100 then some 50 else none,
    socket_connections := fun f => if f = 5 then some si5 else none,
    counters := cnt0 }

/-- The 49-byte request buffer of §8 of the spec. -/
def B3 : List Nat := strBytes "GET /v1/messages HTTP/1.1\r\nContent-Length: 42\r\n\r\n"

/-- A 48-byte buffer whose Content-Length value is the 10-digit `0000000042`. -/
def B7a : List Nat := strBytes "POST /a HTTP/1.1\r\nContent-Length: 0000000042\r\n\r\n"

/-- A 47-byte buffer whose Content-Length digits are `00000000425` (11 digits). -/
def B7b : List Nat := strBytes "POST /a HTTP/1.1\r\nContent-Length: 00000000425\r\n"

/-- Memory that holds the 44 bytes `"GET /v1/messages HTTP/1.1\r\nContent-Length: 4"`
and faults from offset 44 on: a probe-read fault hits right after the first
content-length digit. -/
def faultMem : Mem :=
  fun i => if i < 44 then (strBytes "GET /v1/messages HTTP/1.1\r\nContent-Length: 4")[i]? else none

/-- Memory holding three non-space bytes and faulting from offset 3 on. -/
def mFault8 : Mem := fun i => if i < 3 then some 65 else none

/-- Mask a memory so that every offset at or above `n` faults. -/
def maskAbove (m : Mem) (n : Nat) : Mem := fun i => if i < n then m i else none

/-- Space-found index of a scan result, discarding the output buffer. -/
def resIdx : ScanRes → Option Nat
  | ScanRes.found p _ => some p
  | _ => none

/-- Modelled from the spec (§4.3 scan contract, amended): the index of the
first space among the `fuel` bytes starting at offset `i`, aborting with
`none` on a probe-read fault or when no space occurs in range. -/
def methodSpec (m : Mem) : Nat → Nat → Option Nat
  | 0, _ => none
  | fuel+1, i =>
    match m i with
    | none => none
    | some c => if c = 32 then some i else methodSpec m fuel (i+1)

theorem scanSpace_fault (m : Mem) (off bound maxLen : Nat) :
    ∀ fuel i k out, k < fuel → i + k < bound → m (off + (i + k)) = none →
      (∀ j, j < k → m (off + (i + j)) ≠ none ∧ m (off + (i + j)) ≠ some 32) →
      scanSpace m off bound maxLen fuel i out = ScanRes.fault := by
  intro fuel
  induction fuel with
  | zero => intro i k out hk _ _ _; omega
  | succ n ih =>
    intro i k out hk hb hf hpre
    have hib : i < bound := by omega
    simp only [scanSpace]
    rw [if_pos hib]
    cases k with
    | zero =>
      have hz : m (off + i) = none := hf
      rw [hz]
    | succ k2 =>
      have h0 := hpre 0 (by omega)
      cases hm : m (off + i) with
      | none => rfl
      | some c =>
        have hc : c ≠ 32 := by
          intro hcc
          exact h0.2 (by rw [Nat.add_zero, hm, hcc])
        dsimp only
        rw [if_neg hc]
        apply ih (i+1) k2 _ (by omega)
        · have he : i + 1 + k2 = i + (k2 + 1) := by omega
          rw [he]; exact hb
        · have he : off + (i + 1 + k2) = off + (i + (k2 + 1)) := by omega
          rw [he]; exact hf
        · intro j hj
          have he : off + (i + 1 + j) = off + (i + (j + 1)) := by omega
          rw [he]; exact hpre (j+1) (by omega)

theorem clDigits_agree (m m2 : Mem) (d s : Nat)
    (hag : ∀ j, j < 10 → m (s + j) = m2 (s + j)) :
    ∀ fuel k acc, k + fuel ≤ 10 →
      clDigits m d s fuel k acc = clDigits m2 d s fuel k acc := by
  intro fuel
  induction fuel with
  | zero => intro k acc _; rfl
  | succ n ih =>
    intro k acc hle
    simp only [clDigits]
    by_cases hb : s + k < d
    · rw [if_pos hb, if_pos hb]
      rw [← hag k (by omega)]
      cases hm : m (s + k) with
      | none => rfl
      | some c =>
        dsimp only
        by_cases hd : 48 ≤ c ∧ c ≤ 57
        · rw [if_pos hd, if_pos hd]
          exact ih (k+1) _ (by omega)
        · rw [if_neg hd, if_neg hd]
    · rw [if_neg hb, if_neg hb]

theorem scanSpace_method_spec (m : Mem) (dataLen : Nat) (h8 : 8 ≤ dataLen) :
    ∀ fuel i out, i + fuel ≤ 8 →
      resIdx (scanSpace m 0 dataLen 8 fuel i out) = methodSpec m fuel i := by
  intro fuel
  induction fuel with
  | zero => intro i out _; rfl
  | succ n ih =>
    intro i out hle
    have hib : i < dataLen := by omega
    simp only [scanSpace, methodSpec, Nat.zero_add]
    rw [if_pos hib]
    cases hm : m i with
    | none => rfl
    | some c =>
      dsimp only
      by_cases hc : c = 32
      · rw [if_pos hc, if_pos hc]; rfl
      · rw [if_neg hc, if_neg hc]
        exact ih (i+1) _ (by omega)

theorem methodSpec_lt (m : Mem) :
    ∀ fuel i p, methodSpec m fuel i = some p → p < i + fuel := by
  intro fuel
  induction fuel with
  | zero => intro i p h; exact absurd h (by simp [methodSpec])
  | succ n ih =>
    intro i p h
    simp only [methodSpec] at h
    cases hm : m i with
    | none => rw [hm] at h; cases h
    | some c =>
      rw [hm] at h
      dsimp only at h
      by_cases hc : c = 32
      · rw [if_pos hc] at h
        have : i = p := Option.some.inj h
        omega
      · rw [if_neg hc] at h
        have := ih (i+1) p h
        omega

theorem icpLoop_iff (comm : List Nat) :
    ∀ fuel i, (∀ j, i ≤ j → j < i + fuel → claudeTarget.getD j 0 ≠ 0) →
      (icpLoop comm fuel i = true ↔
        ∀ j, i ≤ j → j < i + fuel → comm.getD j 0 = claudeTarget.getD j 0) := by
  intro fuel
  induction fuel with
  | zero =>
    intro i _
    constructor
    · intro _ j hj1 hj2; omega
    · intro _; rfl
  | succ n ih =>
    intro i hnz
    simp only [icpLoop]
    by_cases hne : comm.getD i 0 ≠ claudeTarget.getD i 0
    · rw [if_pos hne]
      constructor
      · intro hff; cases hff
      · intro hall; exact absurd (hall i le_rfl (by omega)) hne
    · push_neg at hne
      rw [if_neg (fun hcon => hcon hne)]
      have hz : ¬ comm.getD i 0 = 0 := by
        rw [hne]; exact hnz i le_rfl (by omega)
      rw [if_neg hz]
      rw [ih (i+1) (fun j hj1 hj2 => hnz j (by omega) (by omega))]
      constructor
      · intro hall j hj1 hj2
        by_cases hji : j = i
        · rw [hji]; exact hne
        · exact hall j (by omega) (by omega)
      · intro hall j hj1 hj2
        exact hall j (by omega) (by omega)

theorem parse_http_uri_pos (m : Mem) (dataLen methodLen : Nat) (out0 : List Nat)
    (maxLen u : Nat) (ub : List Nat)
    (h : parse_http_uri m dataLen methodLen out0 maxLen = some (u, ub)) : 1 ≤ u := by
  unfold parse_http_uri at h
  by_cases hg : dataLen < methodLen + 2 ∨ dataLen ≤ methodLen
  · rw [if_pos hg] at h; cases h
  · rw [if_neg hg] at h
    cases hs : scanSpace m (methodLen + 1) (dataLen - methodLen - 1) maxLen 128 0 out0 with
    | fault => rw [hs] at h; cases h
    | nospace o => rw [hs] at h; cases h
    | found p o =>
      rw [hs] at h
      dsimp only at h
      by_cases hp : p = 0 ∨ maxLen ≤ p
      · rw [if_pos hp] at h; cases h
      · rw [if_neg hp] at h
        have : p = u := congrArg Prod.fst (Option.some.inj h)
        omega

theorem trace_exit_untracked (s : MonState) (pid : Nat) (ec : Int) (ts : Nat)
    (c : List Nat) (r : Bool) (h : s.claude_pids pid = none) :
    trace_exit s pid ec ts c r = (s, none) := by
  simp [trace_exit, h]

theorem trace_connect_untracked (s : MonState) (pid ts uid fd : Nat) (anb : Bool)
    (fr ar pr : Option Nat) (c : List Nat) (r : Bool)
    (h : s.claude_pids pid = none) :
    trace_connect s pid ts uid fd anb fr ar pr c r = (s, none) := by
  simp [trace_connect, h]

theorem trace_write_untracked (s : MonState) (pid fd : Nat) (m : Mem) (count ts uid : Nat)
    (c : List Nat) (r : Bool) (h : s.claude_pids pid = none) :
    trace_write s pid fd m count ts uid c r = (s, none) := by
  simp [trace_write, h]

/-- Claim C1, counterexample: the 16-byte comm `"claudex\0..."` is not
exactly the target literal `"claude"` but merely begins with it, yet
`is_claude_process` accepts it and a matching exec activation both emits
an EXEC record and creates an identity-tracker entry for the pid. -/
theorem claim_C1_counterexample :
    is_claude_process commClaudex = true ∧
    (trace_execve s0 100 50 1000 1 true commClaudex (List.replicate 256 0) true).2 =
      some { zeroEvent with
        timestamp := 50, pid := 100, ppid := 1, uid := 1000,
        event_type := EVENT_EXEC, comm := commClaudex } ∧
    (trace_execve s0 100 50 1000 1 true commClaudex (List.replicate 256 0) true).1.claude_pids 100 =
      some 50 := by
  exact ⟨by decide, by decide, by decide⟩

/-- Claim C1, amended: the exec handler ignores a comm for which
`is_claude_process` is false, and `is_claude_process` holds exactly when
the first six bytes of the comm equal the bytes of the target literal
`"claude"` — a prefix check, so names merely beginning with the literal
are matched as well. -/
theorem claim_C1_amended :
    ∀ (s : MonState) (pid ts uid ppid : Nat) (comm path : List Nat) (rOk : Bool),
    (is_claude_process comm = false →
      trace_execve s pid ts uid ppid true comm path rOk = (s, none)) ∧
    (is_claude_process comm = true ↔
      ∀ j, j < 6 → comm.getD j 0 = claudeTarget.getD j 0) := by
  intro s pid ts uid ppid comm path rOk
  constructor
  · intro h
    simp [trace_execve, h]
  · have hnz : ∀ j, 0 ≤ j → j < 0 + 6 → claudeTarget.getD j 0 ≠ 0 := by
      intro j _ hj
      have hj6 : j < 6 := by omega
      interval_cases j <;> decide
    have hiff := icpLoop_iff comm 6 0 hnz
    constructor
    · intro h j hj
      exact (hiff.mp h) j (by omega) (by omega)
    · intro h
      exact hiff.mpr (fun j _ hj => h j (by omega))

/-- Claim C1, witness: a non-matching comm (`"python3"`) leads to no
record and no state change. -/
theorem claim_C1_witness :
    trace_execve s0 100 50 1000 1 true (strBytes "python3" ++ List.replicate 9 0)
      (List.replicate 256 0) true = (s0, none) :=
  (claim_C1_amended s0 100 50 1000 1 (strBytes "python3" ++ List.replicate 9 0)
    (List.replicate 256 0) true).1 (by decide)

/-- Claim C6, counterexample: the buffer `"GET X"` of length 5 has a
space at index 3, within `min(8, buffer_len) = 5`, yet `parse_http_method`
fails because of its `data_len < 8` guard — short buffers never succeed,
contrary to the claim. -/
theorem claim_C6_counterexample :
    memOfList (strBytes "GET X") 3 = some 32 ∧ (3 : Nat) < min 8 5 ∧
    parse_http_method (memOfList (strBytes "GET X")) 5 (List.replicate 8 0) 8 = none := by
  exact ⟨by decide, by decide, by decide⟩

/-- Claim C6, amended: method extraction fails outright for buffers
shorter than 8 bytes (and for output capacity below 8); for buffers of
length at least 8 and the caller's capacity 8, its returned length is
exactly the index of the first space among the first 8 bytes, with a
probe-read fault or absence of a space giving failure
(`methodSpec`, modelled from the amended contract). -/
theorem claim_C6_amended :
    ∀ (m : Mem) (dataLen : Nat) (out0 : List Nat),
    (dataLen < 8 → parse_http_method m dataLen out0 8 = none) ∧
    (∀ maxLen, maxLen < 8 → parse_http_method m dataLen out0 maxLen = none) ∧
    (8 ≤ dataLen →
      Option.map Prod.fst (parse_http_method m dataLen out0 8) = methodSpec m 8 0) := by
  intro m dataLen out0
  refine ⟨?_, ?_, ?_⟩
  · intro h
    unfold parse_http_method
    rw [if_pos (Or.inl h)]
  · intro maxLen h
    unfold parse_http_method
    rw [if_pos (Or.inr h)]
  · intro h8
    unfold parse_http_method
    rw [if_neg (by omega)]
    have key := scanSpace_method_spec m dataLen h8 8 0 out0 (by omega)
    cases hs : scanSpace m 0 dataLen 8 8 0 out0 with
    | fault =>
      rw [hs] at key
      simp only [resIdx] at key
      simpa using key
    | nospace o =>
      rw [hs] at key
      simp only [resIdx] at key
      simpa using key
    | found p o =>
      rw [hs] at key
      simp only [resIdx] at key
      have hp8 : p < 0 + 8 := methodSpec_lt m 8 0 p key.symm
      dsimp only
      rw [if_neg (by omega)]
      simpa using key

/-- Claim C6, witness: the amended characterization applied to the
concrete request buffer of length 49. -/
theorem claim_C6_witness :
    Option.map Prod.fst (parse_http_method (memOfList B3) 49 (List.replicate 8 0) 8) =
      methodSpec (memOfList B3) 8 0 :=
  (claim_C6_amended (memOfList B3) 49 (List.replicate 8 0)).2.2 (by omega)

/-- Claim C7: the content-length parse of a buffer whose digit sequence
is the 10-digit `"0000000042"` yields 42; with an 11th digit appended
(`"00000000425"`) the result is still 42, the 11th digit being ignored;
and in general the digit accumulator never inspects any byte at offset
`startPos + 10` or beyond (masking them all to faults changes nothing). -/
theorem claim_C7 :
    parse_content_length (memOfList B7a) 48 = 42 ∧
    parse_content_length (memOfList B7b) 47 = 42 ∧
    ∀ (m : Mem) (dataLen s : Nat),
      clDigits m dataLen s 10 0 0 = clDigits (maskAbove m (s + 10)) dataLen s 10 0 0 := by
  refine ⟨by decide, by decide, ?_⟩
  intro m dataLen s
  apply clDigits_agree m (maskAbove m (s + 10)) dataLen s
  · intro j hj
    simp only [maskAbove]
    rw [if_pos (by omega)]
  · omega

/-- Claim C8: exit handling is idempotent — after one exit activation for
a pid the identity entry for that pid is gone, and a second exit
activation for the same pid emits no record and leaves the whole state
(both trackers and all counters) exactly unchanged. -/
theorem claim_C8 :
    ∀ (s : MonState) (pid : Nat) (ec1 ec2 : Int) (ts1 ts2 : Nat)
      (c1 c2 : List Nat) (r1 r2 : Bool),
    (trace_exit s pid ec1 ts1 c1 r1).1.claude_pids pid = none ∧
    trace_exit (trace_exit s pid ec1 ts1 c1 r1).1 pid ec2 ts2 c2 r2 =
      ((trace_exit s pid ec1 ts1 c1 r1).1, none) := by
  intro s pid ec1 ec2 ts1 ts2 c1 c2 r1 r2
  have key : (trace_exit s pid ec1 ts1 c1 r1).1.claude_pids pid = none := by
    cases h : s.claude_pids pid with
    | none => simp [trace_exit, h]
    | some w =>
      cases r1 <;> simp [trace_exit, h, incDropped, incProcessed, delPid]
  exact ⟨key, trace_exit_untracked _ pid ec2 ts2 c2 r2 key⟩

/-- Claim C2, counterexample: on the tracked, correlated socket, the
16-byte buffer `"AB /x HTTP/1.1\r\n"` satisfies the §4.3 contracts —
method extraction succeeds (space within the first 8 bytes, method
`"AB"` of length 2) and URI extraction succeeds (non-empty `"/x"`) — yet
the handler emits nothing, because of its extra `method_len >= 3`
check. -/
theorem claim_C2_counterexample :
    parse_http_method (memOfList (strBytes "AB /x HTTP/1.1\r\n")) 16 (List.replicate 8 0) 8 =
      some (2, strBytes "AB" ++ List.replicate 6 0) ∧
    parse_http_uri (memOfList (strBytes "AB /x HTTP/1.1\r\n")) 16 2 (List.replicate 128 0) 128 =
      some (2, strBytes "/x" ++ List.replicate 126 0) ∧
    (trace_write sTracked 100 5 (memOfList (strBytes "AB /x HTTP/1.1\r\n")) 16
      901 1000 commClaude true).2 = none := by
  exact ⟨by decide, by decide, by decide⟩

/-- Claim C2, amended: when the gate passes, method extraction succeeds
with method length at least 3, and URI extraction succeeds, the handler
emits an HTTP_REQUEST record carrying the parsed fields and the
correlated destination (here with reservation succeeding); the source
requires `method_len >= 3` in addition to parser success. -/
theorem claim_C2_amended :
    ∀ (s : MonState) (pid fd : Nat) (m : Mem) (count ts uid : Nat)
      (comm : List Nat) (w : Nat) (si : SocketInfo) (mlen : Nat) (mb : List Nat)
      (ulen : Nat) (ub : List Nat),
    s.claude_pids pid = some w →
    s.socket_connections fd = some si →
    16 ≤ count → count ≤ 512 →
    parse_http_method m count (List.replicate 8 0) 8 = some (mlen, mb) →
    3 ≤ mlen →
    parse_http_uri m count mlen (List.replicate 128 0) 128 = some (ulen, ub) →
    (trace_write s pid fd m count ts uid comm true).2 =
      some { zeroEvent with
        timestamp := ts, pid := pid, uid := uid,
        event_type := EVENT_HTTP_REQUEST,
        target_addr := si.target_addr, target_port := si.target_port,
        socket_fd := fd, content_length := parse_content_length m count,
        http_method := mb, http_uri := ub, comm := comm } := by
  intro s pid fd m count ts uid comm w si mlen mb ulen ub h1 h2 h3 h4 h5 h6 h7
  have h8 : 1 ≤ ulen := parse_http_uri_pos m count mlen (List.replicate 128 0) 128 ulen ub h7
  have hc : ¬(count < 16 ∨ 512 < count) := by omega
  have hm3 : ¬(mlen < 3) := by omega
  have hu1 : ¬(ulen < 1) := by omega
  have hu0 : ¬(ulen = 0) := by omega
  unfold trace_write
  rw [h1, h2, h5]
  dsimp only
  rw [h7]
  dsimp only
  simp [hc, hm3, hu1, hu0]

/-- Claim C2, witness: the amended emission statement at the concrete
request buffer on the tracked, correlated socket. -/
theorem claim_C2_witness :
    (trace_write sTracked 100 5 (memOfList B3) 49 901 1000 commClaude true).2 =
      some { zeroEvent with
        timestamp := 901, pid := 100, uid := 1000,
        event_type := EVENT_HTTP_REQUEST,
        target_addr := si5.target_addr, target_port := si5.target_port,
        socket_fd := 5, content_length := parse_content_length (memOfList B3) 49,
        http_method := strBytes "GET" ++ List.replicate 5 0,
        http_uri := strBytes "/v1/messages" ++ List.replicate 116 0,
        comm := commClaude } :=
  claim_C2_amended sTracked 100 5 (memOfList B3) 49 901 1000 commClaude 50 si5 3
    (strBytes "GET" ++ List.replicate 5 0) 12 (strBytes "/v1/messages" ++ List.replicate 116 0)
    (by decide) (by decide) (by decide) (by decide) (by decide) (by decide) (by decide)

/-- Claim C3: on the tracked, correlated socket, the 49-byte buffer
`"GET /v1/messages HTTP/1.1\r\nContent-Length: 42\r\n\r\n"` parses to
method `"GET"`, URI `"/v1/messages"` and content length 42, and the
handler emits an HTTP_REQUEST record carrying those fields together with
the destination address and port stored in the correlation entry. -/
theorem claim_C3 :
    parse_http_method (memOfList B3) 49 (List.replicate 8 0) 8 =
      some (3, strBytes "GET" ++ List.replicate 5 0) ∧
    parse_http_uri (memOfList B3) 49 3 (List.replicate 128 0) 128 =
      some (12, strBytes "/v1/messages" ++ List.replicate 116 0) ∧
    parse_content_length (memOfList B3) 49 = 42 ∧
    (trace_write sTracked 100 5 (memOfList B3) 49 901 1000 commClaude true).2 =
      some { zeroEvent with
        timestamp := 901, pid := 100, uid := 1000,
        event_type := EVENT_HTTP_REQUEST,
        target_addr := 16909060, target_port := 443,
        socket_fd := 5, content_length := 42,
        http_method := strBytes "GET" ++ List.replicate 5 0,
        http_uri := strBytes "/v1/messages" ++ List.replicate 116 0,
        comm := commClaude } := by
  exact ⟨by decide, by decide, by decide, by decide⟩

/-- Claim C4, counterexample: `faultMem` faults at offset 44, right
after the first content-length digit, yet `parse_content_length` returns
the partially accumulated value 4 instead of failing, and a write
activation emits an HTTP_REQUEST record carrying that value. -/
theorem claim_C4_counterexample :
    faultMem 44 = none ∧
    parse_content_length faultMem 50 = 4 ∧
    Option.map ClaudeEvent.content_length
      (trace_write sTracked 100 5 faultMem 50 901 1000 commClaude true).2 = some 4 := by
  exact ⟨by decide, by decide, by decide⟩

/-- Claim C4, amended: the method and URI scans propagate a probe-read
fault as parse failure (first two conjuncts, for a fault hit before any
space); the content-length scan does not — on a fault during digit
accumulation it returns the partial value (here 4), which is emitted. -/
theorem claim_C4_amended :
    (∀ (m : Mem) (dataLen : Nat) (out0 : List Nat) (maxLen i : Nat),
        i < 8 → m i = none →
        (∀ j, j < i → m j ≠ none ∧ m j ≠ some 32) →
        parse_http_method m dataLen out0 maxLen = none) ∧
    (∀ (m : Mem) (dataLen methodLen : Nat) (out0 : List Nat) (maxLen i : Nat),
        i < 128 → i < dataLen - methodLen - 1 → m (methodLen + 1 + i) = none →
        (∀ j, j < i → m (methodLen + 1 + j) ≠ none ∧ m (methodLen + 1 + j) ≠ some 32) →
        parse_http_uri m dataLen methodLen out0 maxLen = none) ∧
    parse_content_length faultMem 50 = 4 := by
  refine ⟨?_, ?_, by decide⟩
  · intro m dataLen out0 maxLen i hi hf hpre
    unfold parse_http_method
    by_cases hg : dataLen < 8 ∨ maxLen < 8
    · rw [if_pos hg]
    · rw [if_neg hg]
      push_neg at hg
      have hsf : scanSpace m 0 dataLen maxLen 8 0 out0 = ScanRes.fault := by
        apply scanSpace_fault m 0 dataLen maxLen 8 0 i out0 hi (by omega)
        · show m (0 + (0 + i)) = none
          rw [Nat.zero_add, Nat.zero_add]
          exact hf
        · intro j hj
          rw [Nat.zero_add, Nat.zero_add]
          exact hpre j hj
      rw [hsf]
  · intro m dataLen methodLen out0 maxLen i hi hb hf hpre
    unfold parse_http_uri
    by_cases hg : dataLen < methodLen + 2 ∨ dataLen ≤ methodLen
    · rw [if_pos hg]
    · rw [if_neg hg]
      have hsf : scanSpace m (methodLen + 1) (dataLen - methodLen - 1) maxLen 128 0 out0 =
          ScanRes.fault := by
        apply scanSpace_fault m (methodLen + 1) (dataLen - methodLen - 1) maxLen 128 0 i out0
          hi (by omega)
        · show m (methodLen + 1 + (0 + i)) = none
          rw [Nat.zero_add]
          exact hf
        · intro j hj
          rw [Nat.zero_add]
          exact hpre j hj
      rw [hsf]

/-- Claim C4, witness: a method scan that faults at offset 3 after three
readable non-space bytes fails. -/
theorem claim_C4_witness :
    parse_http_method mFault8 16 (List.replicate 8 0) 8 = none :=
  claim_C4_amended.1 mFault8 16 (List.replicate 8 0) 8 3 (by decide) (by decide) (by decide)

/-- Claim C5: for a tracked pid with a valid IPv4 destination and a
successful reservation, a CONNECT record is always emitted; when the
host-order destination port is 8080 the socket-correlation map is left
unchanged, while for port 443 or 80 a correlation entry keyed by the
descriptor is created with the pid, address, port and connect time. -/
theorem claim_C5 :
    ∀ (s : MonState) (pid ts uid fd a pNet : Nat) (comm : List Nat) (w : Nat),
    s.claude_pids pid = some w →
    ((trace_connect s pid ts uid fd true (some AF_INET) (some a) (some pNet) comm true).2 =
      some { zeroEvent with
        timestamp := ts, pid := pid, uid := uid,
        event_type := EVENT_CONNECT, target_addr := a,
        target_port := bpf_ntohs pNet, comm := comm }) ∧
    (bpf_ntohs pNet = 8080 →
      (trace_connect s pid ts uid fd true (some AF_INET) (some a) (some pNet) comm true).1.socket_connections =
        s.socket_connections) ∧
    ((bpf_ntohs pNet = 443 ∨ bpf_ntohs pNet = 80) →
      (trace_connect s pid ts uid fd true (some AF_INET) (some a) (some pNet) comm true).1.socket_connections fd =
        some { pid := pid, target_addr := a, target_port := bpf_ntohs pNet, connect_time := ts }) := by
  intro s pid ts uid fd a pNet comm w h
  refine ⟨?_, ?_, ?_⟩
  · by_cases hag : is_anthropic_connection a (bpf_ntohs pNet) = true
    · simp [trace_connect, h, hag]
    · simp [trace_connect, h, hag]
  · intro hp
    have hag : is_anthropic_connection a (bpf_ntohs pNet) = false := by
      rw [hp]; rfl
    simp [trace_connect, h, hag, incConnect, incProcessed]
  · intro hp
    have hag : is_anthropic_connection a (bpf_ntohs pNet) = true := by
      rcases hp with hp | hp <;> (rw [hp]; rfl)
    simp [trace_connect, h, hag, trackSocket, incConnect, incProcessed]

/-- Claim C5, witness: port 8080 (network order 36895) leaves the
correlation map unchanged; port 443 (network order 47873) creates the
correlation entry for descriptor 8. -/
theorem claim_C5_witness :
    (trace_connect sTracked 100 60 1000 7 true (some AF_INET) (some 16909060) (some 36895)
      commClaude true).1.socket_connections = sTracked.socket_connections ∧
    (trace_connect sTracked 100 61 1000 8 true (some AF_INET) (some 16909060) (some 47873)
      commClaude true).1.socket_connections 8 =
      some { pid := 100, target_addr := 16909060, target_port := 443, connect_time := 61 } := by
  constructor
  · exact (claim_C5 sTracked 100 60 1000 7 16909060 36895 commClaude 50 (by decide)).2.1
      (by decide)
  · exact (claim_C5 sTracked 100 61 1000 8 16909060 47873 commClaude 50 (by decide)).2.2
      (Or.inl (by decide))

/-- Claim C9: for a tracked pid, the exit handler removes the identity
entry regardless of reservation outcome; when reservation fails it emits
no record, increments the dropped counter, and leaves the socket map
untouched, but the entry is still deleted. -/
theorem claim_C9 :
    ∀ (s : MonState) (pid : Nat) (ec : Int) (ts : Nat) (comm : List Nat) (w : Nat),
    s.claude_pids pid = some w →
    (∀ rOk : Bool, (trace_exit s pid ec ts comm rOk).1.claude_pids pid = none) ∧
    (trace_exit s pid ec ts comm false).2 = none ∧
    (trace_exit s pid ec ts comm false).1.counters.dropped = s.counters.dropped + 1 ∧
    (trace_exit s pid ec ts comm false).1.socket_connections = s.socket_connections := by
  intro s pid ec ts comm w h
  refine ⟨?_, ?_, ?_, ?_⟩
  · intro rOk
    cases rOk <;> simp [trace_exit, h, incDropped, incProcessed, delPid]
  · simp [trace_exit, h]
  · simp [trace_exit, h, incDropped, delPid]
  · simp [trace_exit, h, incDropped, delPid]

/-- Claim C9, witness: exit of tracked pid 100 with failed reservation
deletes the entry, emits nothing and increments the dropped counter. -/
theorem claim_C9_witness :
    (trace_exit sTracked 100 7 60 commClaude false).1.claude_pids 100 = none ∧
    (trace_exit sTracked 100 7 60 commClaude false).2 = none ∧
    (trace_exit sTracked 100 7 60 commClaude false).1.counters.dropped =
      sTracked.counters.dropped + 1 := by
  have h := claim_C9 sTracked 100 7 60 commClaude 50 (by decide)
  exact ⟨h.1 false, h.2.1, h.2.2.1⟩

/-- Claim C10: during a matching exec whose reservation fails, the pid
is never inserted into the identity tracker — only the execve-calls and
dropped counters change, no record is emitted, and all subsequent
connect, write and exit activations for that pid are ignored. -/
theorem claim_C10 :
    ∀ (s : MonState) (pid ts uid ppid : Nat) (comm path : List Nat),
    is_claude_process comm = true →
    s.claude_pids pid = none →
    (trace_execve s pid ts uid ppid true comm path false).2 = none ∧
    (trace_execve s pid ts uid ppid true comm path false).1.claude_pids = s.claude_pids ∧
    (trace_execve s pid ts uid ppid true comm path false).1.socket_connections =
      s.socket_connections ∧
    (trace_execve s pid ts uid ppid true comm path false).1.counters =
      { s.counters with
        execve_calls := s.counters.execve_calls + 1,
        dropped := s.counters.dropped + 1 } ∧
    (∀ ts2 uid2 fd anb fr ar pr c2 r2,
      trace_connect (trace_execve s pid ts uid ppid true comm path false).1
          pid ts2 uid2 fd anb fr ar pr c2 r2 =
        ((trace_execve s pid ts uid ppid true comm path false).1, none)) ∧
    (∀ fd m count ts3 uid3 c3 r3,
      trace_write (trace_execve s pid ts uid ppid true comm path false).1
          pid fd m count ts3 uid3 c3 r3 =
        ((trace_execve s pid ts uid ppid true comm path false).1, none)) ∧
    (∀ ec ts4 c4 r4,
      trace_exit (trace_execve s pid ts uid ppid true comm path false).1 pid ec ts4 c4 r4 =
        ((trace_execve s pid ts uid ppid true comm path false).1, none)) := by
  intro s pid ts uid ppid comm path hcomm hpid
  have hr : trace_execve s pid ts uid ppid true comm path false =
      (incDropped (incExecve s), none) := by
    simp [trace_execve, hcomm]
  have hmap : (incDropped (incExecve s)).claude_pids pid = none := hpid
  refine ⟨by rw [hr], by rw [hr]; rfl, by rw [hr]; rfl, by rw [hr]; rfl, ?_, ?_, ?_⟩
  · intro ts2 uid2 fd anb fr ar pr c2 r2
    rw [hr]
    exact trace_connect_untracked _ pid ts2 uid2 fd anb fr ar pr c2 r2 hmap
  · intro fd m count ts3 uid3 c3 r3
    rw [hr]
    exact trace_write_untracked _ pid fd m count ts3 uid3 c3 r3 hmap
  · intro ec ts4 c4 r4
    rw [hr]
    exact trace_exit_untracked _ pid ec ts4 c4 r4 hmap

/-- Claim C10, witness: a matching exec on the empty state with failed
reservation emits nothing and leaves the identity tracker empty. -/
theorem claim_C10_witness :
    (trace_execve s0 100 50 1000 1 true commClaude (List.replicate 256 0) false).2 = none ∧
    (trace_execve s0 100 50 1000 1 true commClaude (List.replicate 256 0) false).1.claude_pids =
      s0.claude_pids := by
  have h := claim_C10 s0 100 50 1000 1 commClaude (List.replicate 256 0) (by decide) (by decide)
  exact ⟨h.1, h.2.1⟩
